import Mathlib

/-!
# Verification of the HydroMT `Model` base API

A shallow embedding of `hydromt/models/model_api.py`: the build/update
orchestration pipeline, the option-mapping validator, the dotted-path
configuration tree, and the component-store setters, translated from the
source into executable Lean definitions, with theorems settling the
specification claims.

Python dictionaries are modelled as insertion-ordered association lists with
unique string keys; keyed update keeps the position of an existing key and
appends a fresh one, exactly as CPython dictionaries behave.  Disk I/O
(`read_*` / `write_*` collaborators, filesystem checks in `set_root`) is
abstract: the orchestrators record those calls as events in a trace.
-/

namespace HydroMT

/-- A Python value as it occurs in configuration trees and keyword-argument
dictionaries: strings, integers, or nested dictionaries. -/
inductive PyVal where
  | str (s : String)
  | int (n : Int)
  | dict (entries : List (String × PyVal))
  deriving Repr

/-- Keyword-argument dictionary of a single setup call. -/
abbrev Kwargs := List (String × PyVal)

/-! ## Association-list operations mirroring CPython `dict` semantics -/

/-- `d.get(k)` / `d[k]`: value at the first (for a dict: only) binding of `k`. -/
def alget {α : Type} : List (String × α) → String → Option α
  | [], _ => none
  | (k', v) :: rest, k => if k' = k then some v else alget rest k

/-- `d[k] = v`: replace the binding in place when the key exists (keeping its
position), append it at the end otherwise. -/
def alset {α : Type} : List (String × α) → String → α → List (String × α)
  | [], k, v => [(k, v)]
  | (k', v') :: rest, k, v =>
      if k' = k then (k, v) :: rest else (k', v') :: alset rest k v

/-- `d.pop(k, default)`, the removal part: drop the binding of `k`, keeping
every other binding in order. -/
def alerase {α : Type} : List (String × α) → String → List (String × α)
  | [], _ => []
  | (k', v') :: rest, k => if k' = k then rest else (k', v') :: alerase rest k

/-- `k in d`. -/
def alcontains {α : Type} (l : List (String × α)) (k : String) : Bool :=
  (alget l k).isSome

@[simp] theorem alget_nil {α : Type} (k : String) : alget ([] : List (String × α)) k = none := rfl

theorem alget_cons {α : Type} (k' k : String) (v : α) (rest : List (String × α)) :
    alget ((k', v) :: rest) k = if k' = k then some v else alget rest k := rfl

@[simp] theorem alget_alset_self {α : Type} (l : List (String × α)) (k : String) (v : α) :
    alget (alset l k v) k = some v := by
  induction l with
  | nil => simp [alset, alget]
  | cons p rest ih =>
      obtain ⟨k', v'⟩ := p
      by_cases h : k' = k
      · simp [alset, h, alget]
      · simp [alset, h, alget, ih]

theorem alget_alset_ne {α : Type} (l : List (String × α)) (k k₀ : String) (v : α)
    (hne : k₀ ≠ k) : alget (alset l k v) k₀ = alget l k₀ := by
  induction l with
  | nil => simp [alset, alget, if_neg (Ne.symm hne)]
  | cons p rest ih =>
      obtain ⟨k', v'⟩ := p
      by_cases h : k' = k
      · subst h
        simp [alset, alget, if_neg (Ne.symm hne)]
      · simp only [alset, if_neg h, alget]
        by_cases h0 : k' = k₀ <;> simp [h0, ih]

theorem alget_alerase {α : Type} (l : List (String × α)) (k k₀ : String)
    (hne : k₀ ≠ k) : alget (alerase l k) k₀ = alget l k₀ := by
  induction l with
  | nil => simp [alerase]
  | cons p rest ih =>
      obtain ⟨k', v'⟩ := p
      by_cases h : k' = k
      · subst h
        simp [alerase, alget, if_neg (Ne.symm hne)]
      · simp only [alerase, if_neg h, alget]
        by_cases h0 : k' = k₀ <;> simp [h0, ih]

theorem alget_eq_none_of_not_mem {α : Type} (l : List (String × α)) (k : String)
    (h : k ∉ l.map Prod.fst) : alget l k = none := by
  induction l with
  | nil => rfl
  | cons p rest ih =>
      obtain ⟨k', v'⟩ := p
      simp only [List.map_cons, List.mem_cons] at h
      push_neg at h
      simp [alget, if_neg (Ne.symm h.1), ih h.2]

theorem alget_alerase_self {α : Type} (l : List (String × α)) (k : String)
    (huniq : (l.map Prod.fst).Nodup) : alget (alerase l k) k = none := by
  induction l with
  | nil => simp [alerase]
  | cons p rest ih =>
      obtain ⟨k', v'⟩ := p
      simp only [List.map_cons, List.nodup_cons] at huniq
      by_cases h : k' = k
      · subst h
        simpa [alerase] using alget_eq_none_of_not_mem rest k' huniq.1
      · simp [alerase, h, alget, ih huniq.2]

/-! ## Python `str.strip("0123456789")`

`method.strip("0123456789")` removes the maximal runs of decimal digits from
BOTH ends of the string.  `Char.isDigit` holds exactly on `'0'`–`'9'`, the
character set passed to `strip` in the source. -/

/-- Remove the leading run of decimal digits. -/
def stripLeadingDigits (s : String) : String :=
  String.mk (s.data.dropWhile Char.isDigit)

/-- Remove the trailing run of decimal digits. -/
def stripTrailingDigits (s : String) : String :=
  String.mk ((s.data.reverse.dropWhile Char.isDigit).reverse)

/-- Python `method.strip("0123456789")`: digits removed from both ends. -/
def pyStripDigits (s : String) : String :=
  stripTrailingDigits (stripLeadingDigits s)

/-! ## Attribute table and the option validator (`Model._check_get_opt`)

An attribute of a `Model` instance is either callable (a method) or not
(a property value, a data attribute).  `getattr(self, m, None)` is modelled
by looking the name up in an attribute table. -/

/-- Kind of a resolved Python attribute. -/
inductive Attr where
  | callableA
  | nonCallableA
  deriving Repr, DecidableEq

/-- Attribute table of a `Model` (sub)class instance: which names resolve, and
whether the resolved attribute is callable. -/
def AttrEnv : Type := String → Option Attr

/-- `hasattr(self, m)`. -/
def hasattr (env : AttrEnv) (m : String) : Bool :=
  (env m).isSome

/-- `callable(getattr(self, m, None))`. -/
def callableAttr (env : AttrEnv) (m : String) : Bool :=
  match env m with
  | some .callableA => true
  | _ => false

/-- Errors raised by `_check_get_opt`:
`valueErrorNoMethod method` models `ValueError(f'Model {name} has no method "{method}"')`;
`deprecationWarning method` models
`DeprecationWarning(f'Use full name "setup_{method}" instead of "{method}"')`. -/
inductive OptErr where
  | valueErrorNoMethod (method : String)
  | deprecationWarning (method : String)
  deriving Repr, DecidableEq

/-- The per-key check inside `_check_get_opt` (model_api.py lines 62-70):
strip digits from the key, demand a callable attribute, and distinguish the
deprecation case `not hasattr(self, m) and hasattr(self, f"setup_{m}")`. -/
def checkMethod (env : AttrEnv) (method : String) : Option OptErr :=
  let m := pyStripDigits method
  if callableAttr env m then none
  else if !hasattr env m && hasattr env ("setup_" ++ m) then
    some (.deprecationWarning method)
  else
    some (.valueErrorNoMethod method)

/-- First error over the option keys in iteration order. -/
def firstErr (env : AttrEnv) : List String → Option OptErr
  | [] => none
  | k :: rest =>
      match checkMethod env k with
      | some e => some e
      | none => firstErr env rest

/-- `Model._check_get_opt(opt)`: raise on the first bad key, otherwise return
the mapping unmodified. -/
def checkGetOpt (env : AttrEnv) (opt : List (String × Kwargs)) :
    Except OptErr (List (String × Kwargs)) :=
  match firstErr env (opt.map Prod.fst) with
  | some e => .error e
  | none => .ok opt

/-- The name resolved by `Model._run_log_method` before dispatch:
`func = getattr(self, method.strip("0123456789"))` (line 75-76). -/
def runLogMethodName (method : String) : String :=
  pyStripDigits method

/-- The slice of the base `Model` class attribute table relevant here:
its public methods are callable, its properties and data attributes are
attributes that are not callable (`config`, `region`, ... return plain
values), and `setup_basemaps` is abstract — absent on the base class. -/
def baseModelAttrs : AttrEnv := fun s =>
  if s ∈ ["build", "update", "set_root", "read_config", "write_config",
          "set_config", "setup_config", "get_config", "set_staticmaps",
          "set_staticgeoms", "set_forcing", "set_states", "set_results",
          "set_crs"] then some .callableA
  else if s ∈ ["root", "config", "staticmaps", "staticgeoms", "forcing",
               "states", "results", "crs", "dims", "coords", "res",
               "transform", "width", "height", "shape", "bounds", "region",
               "logger", "data_catalog"] then some .nonCallableA
  else none

/-! ## Model state

Payload types of the component setters.  An `XData.dataArray` carries its
`.name` attribute; an `XData.dataset` carries the names of its `data_vars`;
`XData.ndarray` carries its shape; `XData.pyOther` is any non-xarray object.
The stored values themselves are opaque to every claim, so a collection is an
ordered dictionary from names to payloads (for `staticmaps`, the ordered list
of `data_vars` names of the backing Dataset). -/

/-- An `xarray`/`numpy` payload as far as the setters inspect it. -/
inductive XData where
  | dataArray (name : Option String)
  | dataset (vars : List String)
  | ndarray (shape : List Nat)
  | pyOther
  deriving Repr, DecidableEq

/-- A geometry payload for `set_staticgeoms`. -/
inductive GeoData where
  | geoDataFrame
  | geoSeries
  | gOther
  deriving Repr, DecidableEq

/-- In-memory state of a `Model`: the `_write`/`_read` mode flags set by
`set_root`, the root path, and the component collections.  `shape` stands for
`self.shape` (= `staticmaps.rio.shape`), used only by the raw-ndarray branch
of `set_staticmaps`. -/
structure Model where
  root : Option String
  write : Bool
  read : Bool
  config : List (String × PyVal)
  staticmaps : List String
  shape : List Nat
  staticgeoms : List (String × GeoData)
  forcing : List (String × XData)
  states : List (String × XData)
  results : List (String × XData)
  deriving Repr

/-- A fresh model in pure WRITE mode (`mode="w"`): `_read = False`,
`_write = True`, all collections empty. -/
def freshWriteModel : Model :=
  { root := some "/tmp/model", write := true, read := false, config := [],
    staticmaps := [], shape := [], staticgeoms := [], forcing := [],
    states := [], results := [] }

/-- A fresh model in pure READ mode (`mode="r"`): `_read = True`,
`_write = False`. -/
def freshReadModel : Model :=
  { freshWriteModel with write := false, read := true }

/-- Effect of `set_root(root, mode="w")` on the mode flags (lines 169-171):
`_read = mode.startswith("r") = False`, `_write = (mode != "r") = True`.
Directory creation is collaborator I/O, recorded as an event by `update`. -/
def setRootWriteMode (r : String) (m : Model) : Model :=
  { m with root := some r, write := true, read := false }

/-- `Model.region is None` (lines 658-667): no `"region"` entry cached in the
geometry collection and the staticmaps Dataset has no variables. -/
def regionIsNone (m : Model) : Bool :=
  !alcontains m.staticgeoms "region" && m.staticmaps.length == 0

/-! ## Orchestrators: `Model.build` and `Model.update`

The setup methods a pipeline dispatches to are abstract (subclass-defined),
so the orchestrators produce the trace of collaborator calls: each
`_run_log_method` dispatch, the full read pass, the re-rooting, and the full
write pass.  They also return the final state of the option mapping — Python
passes the dictionary by reference and `opt.pop` mutates it, so the returned
mapping is what the caller's dictionary holds after the call. -/

/-- One collaborator call made by a pipeline. -/
inductive Event where
  | run (method : String) (kwargs : Kwargs)
  | readAll
  | setRoot (root : String) (mode : String)
  | writeAll
  deriving Repr

/-- Dispatch events of the remaining option entries, in iteration order. -/
def runEvents (opt : List (String × Kwargs)) : List Event :=
  opt.map fun p => Event.run p.1 p.2

/-- `Model.build(region, res, write, opt)` (lines 88-107): validate, pop and
run `setup_config`, pop the `setup_basemaps` entry and run it with `region`
(and `res` when given) merged into its keyword arguments, run the remaining
entries in order, and finally write. -/
def build (env : AttrEnv) (region : PyVal) (res : Option PyVal)
    (writeFlag : Bool) (opt : List (String × Kwargs)) :
    List Event × Except OptErr (List (String × Kwargs)) :=
  match checkGetOpt env opt with
  | .error e => ([], .error e)
  | .ok opt1 =>
      let cfgKw := (alget opt1 "setup_config").getD []
      let opt2 := alerase opt1 "setup_config"
      let bmCaller := (alget opt2 "setup_basemaps").getD []
      let opt3 := alerase opt2 "setup_basemaps"
      let bmKw0 := alset bmCaller "region" region
      let bmKw :=
        match res with
        | some r => alset bmKw0 "res" r
        | none => bmKw0
      (Event.run "setup_config" cfgKw :: Event.run "setup_basemaps" bmKw ::
         runEvents opt3 ++ (if writeFlag then [Event.writeAll] else []),
       .ok opt3)

/-- Errors raised by `Model.update`: `checkErr` wraps a `_check_get_opt`
error; `modelOutRequired` models
`ValueError('"model_out" directory required when updating in "read-only" mode')`;
`regionNotFound` models
`ValueError('Model region not found, setup basemaps using "build" method first.')`. -/
inductive UpdErr where
  | checkErr (e : OptErr)
  | modelOutRequired
  | regionNotFound
  deriving Repr, DecidableEq

/-- `Model.update(model_out, write, opt)` (lines 109-143).  `readFn` is the
abstract subclass `read()` collaborator: the model state it returns is the
in-memory state after the full read pass. -/
def update (env : AttrEnv) (readFn : Model → Model) (m : Model)
    (model_out : Option String) (writeFlag : Bool)
    (opt : List (String × Kwargs)) :
    List Event × Except UpdErr (List (String × Kwargs)) :=
  match checkGetOpt env opt with
  | .error e => ([], .error (.checkErr e))
  | .ok opt1 =>
      let pre : Except UpdErr (Model × List Event) :=
        if m.write then .ok (m, [])
        else
          match model_out with
          | none => .error .modelOutRequired
          | some r =>
              .ok (setRootWriteMode r (readFn m),
                   [Event.readAll, Event.setRoot r "w"])
      match pre with
      | .error e => ([], .error e)
      | .ok (m1, preEv) =>
          if regionIsNone m1 then (preEv, .error .regionNotFound)
          else
            let opt2 := alerase opt1 "setup_basemaps"
            let cfgKw := (alget opt2 "setup_config").getD []
            let opt3 := alerase opt2 "setup_config"
            (preEv ++ Event.run "setup_config" cfgKw :: runEvents opt3
               ++ (if writeFlag then [Event.writeAll] else []),
             .ok opt3)

/-! ## Configuration tree: `Model.set_config` / `Model.get_config` -/

/-- Python `s.split(".")` on the single-character separator used by the
source: cut the string at every `'.'`, keeping empty pieces. -/
def splitDotAux : List Char → List Char → List String
  | [], acc => [String.mk acc.reverse]
  | c :: rest, acc =>
      if c = '.' then String.mk acc.reverse :: splitDotAux rest []
      else splitDotAux rest (c :: acc)

/-- Python `a.split(".")`. -/
def splitOnDot (a : String) : List String :=
  splitDotAux a.data []

/-- The shared dotted-path parse (lines 352-353 and 401-402): a single key
containing `'.'` splits on `'.'`; any other argument list is left alone. -/
def splitDotted (args : List String) : List String :=
  match args with
  | [a] => if a.data.contains '.' then splitOnDot a else [a]
  | _ => args

/-- The write walk of `set_config` (lines 354-359): descend along the keys,
replacing an absent or non-dictionary intermediate with an empty dictionary,
then bind the last key to the value. -/
def setBranch : List (String × PyVal) → List String → PyVal → List (String × PyVal)
  | branch, [], _ => branch
  | branch, [k], v => alset branch k v
  | branch, k :: rest, v =>
      let sub :=
        match alget branch k with
        | some (.dict d) => d
        | _ => []
      alset branch k (.dict (setBranch sub rest v))

/-- The read walk of `get_config` (lines 403-409): `branch.get(key, {})` for
each intermediate key — a non-dictionary intermediate resets the branch to the
empty dictionary and stops descending — then the last key's value, `none`
meaning the fallback is returned. -/
def getConfigKeys : List (String × PyVal) → List String → Option PyVal
  | _, [] => none
  | cfg, [k] => alget cfg k
  | cfg, k :: rest =>
      match alget cfg k with
      | some (.dict d) => getConfigKeys d rest
      | some _ => none
      | none => getConfigKeys [] rest

/-- Errors raised by the mutating operations: `ValueError` / `IOError` with
the exact message of the source; `uncaughtCrash` marks a code path on which
the Python source would fail with an uncaught non-signalled exception
(an `AttributeError` on a payload that is neither checked nor handled). -/
inductive SetErr where
  | valueError (msg : String)
  | ioError (msg : String)
  | uncaughtCrash
  deriving Repr, DecidableEq

/-- `Model.set_config(*args)` (lines 325-359) for `args = keys ++ [value]`:
read-only guard, dotted-path parse, then the write walk. -/
def set_config (m : Model) (keys : List String) (value : PyVal) :
    Except SetErr Model :=
  if !m.write then .error (.ioError "Model opened in read-only mode")
  else .ok { m with config := setBranch m.config (splitDotted keys) value }

/-- `Model.get_config(*args, fallback=None)` (lines 369-414), without the
`abs_path` collaborator branch: dotted-path parse, read walk, fallback when
the walk yields nothing. -/
def get_config (m : Model) (keys : List String) (fallback : Option PyVal) :
    Option PyVal :=
  match getConfigKeys m.config (splitDotted keys) with
  | some v => some v
  | none => fallback

/-! ## Component setters -/

/-- The shared storage loop of `set_forcing` / `set_states` / `set_results`
(e.g. lines 520-525): for each entry, an existing name may only be replaced
in a writable mode; then store. -/
def storeEntries (writable : Bool) (errMsg : String → String) :
    List (String × XData) → List (String × XData) →
    Except SetErr (List (String × XData))
  | coll, [] => .ok coll
  | coll, (n, v) :: rest =>
      if alcontains coll n && !writable then .error (.ioError (errMsg n))
      else storeEntries writable errMsg (alset coll n v) rest

/-- Normalization of a `DataArray`/`Dataset` payload shared by `set_forcing`,
`set_states` and `set_results` (e.g. lines 507-519): resolve the dictionary of
entries to store, or fail when no name is resolvable or the payload type is
not recognized. -/
def normalizeDictPayload (data : XData) (name : Option String) :
    Except SetErr (List (String × XData)) :=
  match data with
  | .dataArray dn =>
      let dn1 := if dn.isNone then name else dn
      match (if name.isNone then dn else name) with
      | none => .error (.valueError "Name required for forcing DataArray.")
      | some n => .ok [(n, .dataArray dn1)]
  | .dataset vars => .ok (vars.map fun v => (v, .dataArray (some v)))
  | _ => .error (.valueError "Data type not recognized")

/-- `Model.set_forcing(data, name)` (lines 495-525). -/
def set_forcing (m : Model) (data : XData) (name : Option String) :
    Except SetErr Model :=
  match normalizeDictPayload data name with
  | .error e => .error e
  | .ok entries =>
      match storeEntries m.write
          (fun s => "Cannot replace forcing " ++ s ++ " in read-only mode")
          m.forcing entries with
      | .error e => .error e
      | .ok coll => .ok { m with forcing := coll }

/-- `Model.set_states(data, name)` (lines 535-565). -/
def set_states (m : Model) (data : XData) (name : Option String) :
    Except SetErr Model :=
  match normalizeDictPayload data name with
  | .error e => .error e
  | .ok entries =>
      match storeEntries m.write
          (fun s => "Cannot replace state " ++ s ++ " in read-only mode")
          m.states entries with
      | .error e => .error e
      | .ok coll => .ok { m with states := coll }

/-- `Model.set_results(data, name)` (lines 575-605). -/
def set_results (m : Model) (data : XData) (name : Option String) :
    Except SetErr Model :=
  match normalizeDictPayload data name with
  | .error e => .error e
  | .ok entries =>
      match storeEntries m.write
          (fun s => "Cannot replace results " ++ s ++ " in read-only mode")
          m.results entries with
      | .error e => .error e
      | .ok coll => .ok { m with results := coll }

/-- `Model.set_staticgeoms(geom, name)` (lines 473-485). -/
def set_staticgeoms (m : Model) (geom : GeoData) (name : String) :
    Except SetErr Model :=
  if geom = .gOther then
    .error (.valueError
      "First parameter map(s) should be geopandas.GeoDataFrame or geopandas.GeoSeries")
  else if alcontains m.staticgeoms name && !m.write then
    .error (.ioError ("Cannot overwrite staticgeom " ++ name ++ " in read-only mode"))
  else .ok { m with staticgeoms := alset m.staticgeoms name geom }

/-- The `data_vars` merge loop of `set_staticmaps` (lines 455-463): an
existing variable may only be overwritten in a writable mode; a Dataset keeps
the position of an overwritten variable and appends fresh ones. -/
def smInsertVars (writable : Bool) : List String → List String →
    Except SetErr (List String)
  | sm, [] => .ok sm
  | sm, dvar :: rest =>
      if sm.contains dvar && !writable then
        .error (.ioError ("Cannot overwrite staticmap " ++ dvar ++ " in read-only mode"))
      else
        smInsertVars writable (if sm.contains dvar then sm else sm ++ [dvar]) rest

/-- The name-resolution prologue of `set_staticmaps` (lines 430-442): with no
explicit name, a named `DataArray` supplies its own name, a `Dataset` passes
through, anything else fails; with an explicit name, a `Dataset` is renamed
(single unmatched field), rejected (several fields none of which match), or
narrowed to the matching field. -/
def smNormalize (data : XData) (name : Option String) :
    Except SetErr (XData × Option String) :=
  match data with
  | .dataset vars =>
      match name with
      | none => .ok (.dataset vars, none)
      | some n =>
          if vars.length == 1 && !vars.contains n then
            .ok (.dataset [n], some n)
          else if !vars.contains n then
            .error (.valueError "Name not found in DataSet")
          else .ok (.dataset [n], some n)
  | .dataArray dn =>
      match name with
      | none =>
          match dn with
          | some d0 => .ok (.dataArray (some d0), some d0)
          | none => .error (.valueError "Setting a map requires a name")
      | some n => .ok (.dataArray dn, some n)
  | d =>
      match name with
      | none => .error (.valueError "Setting a map requires a name")
      | some n => .ok (d, some n)

/-- `Model.set_staticmaps(data, name)` (lines 428-463), translated branch for
branch: name resolution with the single-variable rename (lines 430-442),
DataArray-to-Dataset conversion (443-445), the wholesale assignment when the
collection is empty (446-449), and the ndarray shape check plus merge loop
otherwise (450-463). -/
def set_staticmaps (m : Model) (data : XData) (name : Option String) :
    Except SetErr Model :=
  match smNormalize data name with
  | .error e => .error e
  | .ok (data1, name1) =>
      let data2 : XData :=
        match data1 with
        | .dataArray _ =>
            match name1 with
            | some n => .dataset [n]
            | none => .dataset []
        | d => d
      if m.staticmaps.length == 0 then
        match data2 with
        | .dataset vars => .ok { m with staticmaps := vars }
        | _ => .error (.valueError "First parameter map(s) should xarray.Dataset")
      else
        match data2 with
        | .ndarray shp =>
            if shp ≠ m.shape then
              .error (.valueError "Shape of data and staticmaps do not match")
            else
              match name1 with
              | some n =>
                  match smInsertVars m.write m.staticmaps [n] with
                  | .error e => .error e
                  | .ok sm => .ok { m with staticmaps := sm }
              | none => .error .uncaughtCrash
        | .dataset vars =>
            match smInsertVars m.write m.staticmaps vars with
            | .error e => .error e
            | .ok sm => .ok { m with staticmaps := sm }
        | _ => .error .uncaughtCrash

/-! ## Derived facts about the embedding -/

/-- `_check_get_opt` never repairs its input: success returns the mapping. -/
theorem checkGetOpt_ok_eq (env : AttrEnv) (opt o : List (String × Kwargs))
    (h : checkGetOpt env opt = .ok o) : o = opt := by
  unfold checkGetOpt at h
  cases hf : firstErr env (opt.map Prod.fst) with
  | none => rw [hf] at h; exact (Except.ok.inj h).symm
  | some e => rw [hf] at h; exact absurd h (by simp)

theorem firstErr_eq_none (env : AttrEnv) (ks : List String)
    (h : ∀ k ∈ ks, checkMethod env k = none) : firstErr env ks = none := by
  induction ks with
  | nil => rfl
  | cons k rest ih =>
      have hk := h k (List.mem_cons_self k rest)
      simp only [firstErr, hk]
      exact ih fun k' hk' => h k' (List.mem_cons_of_mem k hk')

/-- `pyStripDigits` unfolded to its list computation. -/
theorem pyStripDigits_data (s : String) :
    pyStripDigits s =
      String.mk (((s.data.dropWhile Char.isDigit).reverse.dropWhile
        Char.isDigit).reverse) := rfl

/-- Appending a run of digits to a key does not change its stripped form. -/
theorem pyStripDigits_append_digits (s d : String)
    (hd : ∀ c ∈ d.data, c.isDigit) :
    pyStripDigits (s ++ d) = pyStripDigits s := by
  have hdrev : ∀ c ∈ d.data.reverse, c.isDigit := by
    intro c hc
    exact hd c (List.mem_reverse.mp hc)
  rw [pyStripDigits_data, pyStripDigits_data, String.data_append,
    List.dropWhile_append]
  by_cases h : (s.data.dropWhile Char.isDigit).isEmpty
  · rw [if_pos h, List.dropWhile_eq_nil_iff.mpr hd,
      List.isEmpty_iff.mp h]
  · rw [if_neg h, List.reverse_append, List.dropWhile_append_of_pos hdrev]

/-- Classification of a validation verdict by error class, ignoring the raw
key echoed inside the message. -/
def optErrClass : Option OptErr → Nat
  | none => 0
  | some (.valueErrorNoMethod _) => 1
  | some (.deprecationWarning _) => 2

/-! ## The claims -/

/-- C2 counterexample: the option key `"config"` names an attribute of the
base `Model` (the `config` property) that is not callable, while a callable
`setup_config` exists.  The claim predicts the DeprecationError-class
failure for it; `_check_get_opt` raises the ValueError-class error instead,
because its deprecation branch additionally requires `not hasattr(self, m)`. -/
theorem c2_deprecation_counterexample :
    callableAttr baseModelAttrs "config" = false ∧
    callableAttr baseModelAttrs "setup_config" = true ∧
    checkMethod baseModelAttrs "config" =
      some (.valueErrorNoMethod "config") ∧
    checkGetOpt baseModelAttrs [("config", [])] =
      .error (.valueErrorNoMethod "config") :=
  ⟨by decide, by decide, by decide, rfl⟩

/-- C2 (amended): `_check_get_opt` accepts a key exactly when its stripped
form is a callable attribute; it fails with the DeprecationError-class error
exactly when the stripped form is *no attribute at all* while an attribute
named `setup_<name>` exists; in every other failing case it raises the
ValueError-class "no method" error; and when every key resolves it returns
the mapping unmodified. -/
theorem c2_resolver_amended (env : AttrEnv) (opt : List (String × Kwargs))
    (method : String) :
    (checkMethod env method = none ↔
      callableAttr env (pyStripDigits method) = true) ∧
    (checkMethod env method = some (.deprecationWarning method) ↔
      callableAttr env (pyStripDigits method) = false ∧
      hasattr env (pyStripDigits method) = false ∧
      hasattr env ("setup_" ++ pyStripDigits method) = true) ∧
    (checkMethod env method = some (.valueErrorNoMethod method) ↔
      callableAttr env (pyStripDigits method) = false ∧
      (hasattr env (pyStripDigits method) = true ∨
        hasattr env ("setup_" ++ pyStripDigits method) = false)) ∧
    ((∀ k ∈ opt.map Prod.fst, checkMethod env k = none) →
      checkGetOpt env opt = .ok opt) := by
  refine ⟨?_, ?_, ?_, ?_⟩
  · unfold checkMethod
    by_cases hc : callableAttr env (pyStripDigits method) = true
    · simp [hc]
    · simp only [hc, if_false, Bool.false_eq_true, iff_false]
      split <;> simp
  · unfold checkMethod
    by_cases hc : callableAttr env (pyStripDigits method) = true
    · simp [hc]
    · by_cases hh : hasattr env (pyStripDigits method)
      · simp [hc, hh]
      · by_cases hs : hasattr env ("setup_" ++ pyStripDigits method) <;>
          simp_all
  · unfold checkMethod
    by_cases hc : callableAttr env (pyStripDigits method) = true
    · simp [hc]
    · by_cases hh : hasattr env (pyStripDigits method)
      · simp_all
      · by_cases hs : hasattr env ("setup_" ++ pyStripDigits method) <;>
          simp_all
  · intro hall
    unfold checkGetOpt
    rw [firstErr_eq_none env _ hall]

/-- Witness for C2 (amended) at concrete inputs: the deprecated short key
`"basemaps"` (no such attribute, but `setup_basemaps` exists on the demo
subclass below is not needed — the base class already has `setup_config`),
and a fully valid mapping passing through unmodified. -/
theorem c2_resolver_amended_witness :
    (checkMethod baseModelAttrs "basemaps0" =
      some (.deprecationWarning "basemaps0") ↔
      callableAttr baseModelAttrs (pyStripDigits "basemaps0") = false ∧
      hasattr baseModelAttrs (pyStripDigits "basemaps0") = false ∧
      hasattr baseModelAttrs ("setup_" ++ pyStripDigits "basemaps0") = true) ∧
    checkGetOpt baseModelAttrs [("setup_config", [])] =
      .ok [("setup_config", [])] :=
  ⟨(c2_resolver_amended baseModelAttrs [("setup_config", [])] "basemaps0").2.1,
   (c2_resolver_amended baseModelAttrs [("setup_config", [])]
      "basemaps0").2.2.2 (by decide)⟩

/-- C3 counterexample: `str.strip("0123456789")` removes digits from both
ends, so for the key `"1setup_config"` the canonical name is
`"setup_config"`, not the claim's trailing-only strip `"1setup_config"`; the
validator consequently accepts the key although its trailing-stripped form
resolves to no attribute. -/
theorem c3_strip_counterexample :
    runLogMethodName "1setup_config" = "setup_config" ∧
    stripTrailingDigits "1setup_config" = "1setup_config" ∧
    runLogMethodName "1setup_config" ≠ stripTrailingDigits "1setup_config" ∧
    hasattr baseModelAttrs "1setup_config" = false ∧
    checkMethod baseModelAttrs "1setup_config" = none :=
  ⟨by decide, by decide, by decide, by decide, by decide⟩

/-- C3 (amended): the canonical method name used both by validation
(`_check_get_opt`) and by dispatch (`_run_log_method`) is the key with its
leading and trailing runs of decimal digits removed; a purely numeric suffix
therefore has no effect on which method is resolved or on the verdict class
of validation. -/
theorem c3_canonical_amended (env : AttrEnv) (method suffix : String)
    (hs : ∀ c ∈ suffix.data, c.isDigit) :
    runLogMethodName method =
      stripTrailingDigits (stripLeadingDigits method) ∧
    runLogMethodName (method ++ suffix) = runLogMethodName method ∧
    optErrClass (checkMethod env (method ++ suffix)) =
      optErrClass (checkMethod env method) := by
  have hstrip := pyStripDigits_append_digits method suffix hs
  refine ⟨rfl, hstrip, ?_⟩
  unfold checkMethod
  rw [hstrip]
  by_cases hc : callableAttr env (pyStripDigits method) = true
  · simp [hc, optErrClass]
  · by_cases hd : (!hasattr env (pyStripDigits method) &&
        hasattr env ("setup_" ++ pyStripDigits method)) = true <;>
      simp [hc, hd, optErrClass]

/-- Witness for C3 (amended): the key `"setup_basemaps2"` resolves to the
same method as `"setup_basemaps"` and validates identically. -/
theorem c3_canonical_amended_witness :
    runLogMethodName "setup_basemaps2" = runLogMethodName "setup_basemaps" ∧
    optErrClass (checkMethod baseModelAttrs "setup_basemaps2") =
      optErrClass (checkMethod baseModelAttrs "setup_basemaps") :=
  ⟨((c3_canonical_amended baseModelAttrs "setup_basemaps" "2")
      (by decide)).2.1,
   ((c3_canonical_amended baseModelAttrs "setup_basemaps" "2")
      (by decide)).2.2⟩

/-- The keys of `alerase l k` form a sublist of the keys of `l`. -/
theorem alerase_keys_sublist {α : Type} (l : List (String × α)) (k : String) :
    ((alerase l k).map Prod.fst).Sublist (l.map Prod.fst) := by
  induction l with
  | nil => simp [alerase]
  | cons p rest ih =>
      obtain ⟨k', v'⟩ := p
      by_cases h : k' = k
      · simp only [alerase, if_pos h, List.map_cons]
        exact List.sublist_cons_self _ _
      · simp only [alerase, if_neg h, List.map_cons]
        exact ih.cons₂ _

theorem alerase_keys_nodup {α : Type} (l : List (String × α)) (k : String)
    (h : (l.map Prod.fst).Nodup) : ((alerase l k).map Prod.fst).Nodup :=
  List.Nodup.sublist (alerase_keys_sublist l k) h

/-- Attribute table of a demo concrete subclass: it implements the abstract
`setup_basemaps` and one extra setup method on top of the base class. -/
def demoModelAttrs : AttrEnv := fun s =>
  if s = "setup_basemaps" ∨ s = "setup_precip" then some .callableA
  else baseModelAttrs s

/-- A WRITE-mode model with an established (cached) region geometry. -/
def writeModelWithRegion : Model :=
  { freshWriteModel with staticgeoms := [("region", .geoDataFrame)] }

/-- A READ-mode model holding one forcing entry, one map variable and the
cached region geometry. -/
def readModelWithData : Model :=
  { freshReadModel with
    forcing := [("precip", .dataArray (some "precip"))],
    staticmaps := ["dem"],
    staticgeoms := [("region", .geoDataFrame)] }

/-- C1: for every option mapping accepted by validation, `build` runs
`setup_config` first with the caller's entry, then `setup_basemaps` with the
caller's entry merged with `region` (and `res` when not null) while every
other caller-supplied keyword is preserved, and then the remaining entries in
the mapping's iteration order (followed by the write pass when requested). -/
theorem c1_build_order (env : AttrEnv) (region : PyVal) (res : Option PyVal)
    (writeFlag : Bool) (opt : List (String × Kwargs))
    (hok : checkGetOpt env opt = .ok opt) :
    ∃ bmKw : Kwargs,
      (build env region res writeFlag opt).1 =
        Event.run "setup_config" ((alget opt "setup_config").getD []) ::
        Event.run "setup_basemaps" bmKw ::
        (runEvents (alerase (alerase opt "setup_config") "setup_basemaps") ++
          (if writeFlag then [Event.writeAll] else [])) ∧
      alget bmKw "region" = some region ∧
      (∀ r, res = some r → alget bmKw "res" = some r) ∧
      (∀ k, k ≠ "region" → (res = none ∨ k ≠ "res") →
        alget bmKw k = alget ((alget opt "setup_basemaps").getD []) k) := by
  simp only [build, hok]
  refine ⟨_, rfl, ?_, ?_, ?_⟩
  · cases res with
    | none => exact alget_alset_self _ _ _
    | some r =>
        rw [alget_alset_ne _ _ _ _ (by decide)]
        exact alget_alset_self _ _ _
  · intro r hr
    subst hr
    exact alget_alset_self _ _ _
  · intro k hk1 hk2
    have hbase : alget (alerase opt "setup_config") "setup_basemaps" =
        alget opt "setup_basemaps" := alget_alerase _ _ _ (by decide)
    cases res with
    | none => rw [alget_alset_ne _ _ _ _ hk1, hbase]
    | some r =>
        rcases hk2 with h | hk2
        · exact absurd h (by simp)
        · rw [alget_alset_ne _ _ _ _ hk2, alget_alset_ne _ _ _ _ hk1, hbase]

/-- A concrete option mapping for the build witness: the basemap entry
carries a caller-supplied keyword, and a second setup entry follows. -/
def demoOptBuild : List (String × Kwargs) :=
  [("setup_basemaps", [("fill", .int 1)]), ("setup_precip", [])]

/-- Witness for C1: a concrete build on the demo subclass, with a caller
keyword under the `setup_basemaps` entry, a resolution, and a trailing
entry. -/
theorem c1_build_order_witness :
    ∃ bmKw : Kwargs,
      (build demoModelAttrs (.str "bbox") (some (.int 10)) true
          demoOptBuild).1 =
        Event.run "setup_config" ((alget demoOptBuild "setup_config").getD []) ::
        Event.run "setup_basemaps" bmKw ::
        (runEvents (alerase (alerase demoOptBuild "setup_config")
            "setup_basemaps") ++
          (if true then [Event.writeAll] else [])) ∧
      alget bmKw "region" = some (.str "bbox") ∧
      (∀ r, (some (PyVal.int 10)) = some r → alget bmKw "res" = some r) ∧
      (∀ k, k ≠ "region" → ((some (PyVal.int 10)) = none ∨ k ≠ "res") →
        alget bmKw k = alget ((alget demoOptBuild "setup_basemaps").getD []) k) :=
  c1_build_order demoModelAttrs (.str "bbox") (some (.int 10)) true
    demoOptBuild rfl

/-- C9: after a successful `build` the caller's option mapping — Python
passes it by reference and the pipeline pops from it — no longer holds the
`setup_config` and `setup_basemaps` entries, and after a successful `update`
the same two entries are gone; every other entry is untouched. -/
theorem c9_opt_mutation (env : AttrEnv) (region : PyVal) (res : Option PyVal)
    (writeFlag : Bool) (readFn : Model → Model) (m : Model)
    (model_out : Option String)
    (optB optU finalB finalU : List (String × Kwargs))
    (huB : (optB.map Prod.fst).Nodup) (huU : (optU.map Prod.fst).Nodup)
    (hb : (build env region res writeFlag optB).2 = .ok finalB)
    (hu : (update env readFn m model_out writeFlag optU).2 = .ok finalU) :
    alget finalB "setup_config" = none ∧
    alget finalB "setup_basemaps" = none ∧
    (∀ k, k ≠ "setup_config" → k ≠ "setup_basemaps" →
      alget finalB k = alget optB k) ∧
    alget finalU "setup_config" = none ∧
    alget finalU "setup_basemaps" = none ∧
    (∀ k, k ≠ "setup_config" → k ≠ "setup_basemaps" →
      alget finalU k = alget optU k) := by
  have hfb : finalB = alerase (alerase optB "setup_config") "setup_basemaps" := by
    cases hc : checkGetOpt env optB with
    | error e => simp [build, hc] at hb
    | ok o =>
        have ho := checkGetOpt_ok_eq env optB o hc
        subst ho
        simp [build, hc] at hb
        exact hb.symm
  have hfu : finalU = alerase (alerase optU "setup_basemaps") "setup_config" := by
    cases hc : checkGetOpt env optU with
    | error e => simp [update, hc] at hu
    | ok o =>
        have ho := checkGetOpt_ok_eq env optU o hc
        subst ho
        by_cases hw : m.write
        · by_cases hr : regionIsNone m
          · simp [update, hc, hw, hr] at hu
          · simp [update, hc, hw, hr] at hu
            exact hu.symm
        · cases hmo : model_out with
          | none => simp [update, hc, hw, hmo] at hu
          | some r =>
              by_cases hr : regionIsNone (setRootWriteMode r (readFn m))
              · simp [update, hc, hw, hmo, hr] at hu
              · simp [update, hc, hw, hmo, hr] at hu
                exact hu.symm
  subst hfb hfu
  refine ⟨?_, ?_, ?_, ?_, ?_, ?_⟩
  · rw [alget_alerase _ _ _ (by decide)]
    exact alget_alerase_self _ _ huB
  · exact alget_alerase_self _ _ (alerase_keys_nodup _ _ huB)
  · intro k h1 h2
    rw [alget_alerase _ _ _ h2, alget_alerase _ _ _ h1]
  · exact alget_alerase_self _ _ (alerase_keys_nodup _ _ huU)
  · rw [alget_alerase _ _ _ (by decide)]
    exact alget_alerase_self _ _ huU
  · intro k h1 h2
    rw [alget_alerase _ _ _ h1, alget_alerase _ _ _ h2]

/-- A concrete option mapping exercising `build`: the two forced entries
plus one ordinary setup entry. -/
def demoOptFull : List (String × Kwargs) :=
  [("setup_config", []), ("setup_basemaps", []),
    ("setup_precip", [("a", .int 1)])]

/-- A concrete option mapping with a single ordinary setup entry. -/
def demoOptSmall : List (String × Kwargs) :=
  [("setup_precip", [])]

/-- Witness for C9: a concrete build and update whose mappings each carry an
extra entry that survives while the forced entries are popped. -/
theorem c9_opt_mutation_witness :
    alget (alerase (alerase demoOptFull "setup_config") "setup_basemaps")
      "setup_config" = none ∧
    alget (alerase (alerase demoOptFull "setup_config") "setup_basemaps")
      "setup_basemaps" = none ∧
    (∀ k, k ≠ "setup_config" → k ≠ "setup_basemaps" →
      alget (alerase (alerase demoOptFull "setup_config") "setup_basemaps") k =
        alget demoOptFull k) ∧
    alget (alerase (alerase demoOptSmall "setup_basemaps") "setup_config")
      "setup_config" = none ∧
    alget (alerase (alerase demoOptSmall "setup_basemaps") "setup_config")
      "setup_basemaps" = none ∧
    (∀ k, k ≠ "setup_config" → k ≠ "setup_basemaps" →
      alget (alerase (alerase demoOptSmall "setup_basemaps") "setup_config") k =
        alget demoOptSmall k) :=
  c9_opt_mutation demoModelAttrs (.str "bbox") none true
    (fun m => m) writeModelWithRegion none demoOptFull demoOptSmall
    (alerase (alerase demoOptFull "setup_config") "setup_basemaps")
    (alerase (alerase demoOptSmall "setup_basemaps") "setup_config")
    (by decide) (by decide) rfl rfl

/-- `Model.region is None` unfolded to the claim's phrasing: no cached
`"region"` geometry and an empty staticmaps collection. -/
theorem regionIsNone_iff (m : Model) :
    regionIsNone m = true ↔
      alcontains m.staticgeoms "region" = false ∧ m.staticmaps = [] := by
  cases h : alcontains m.staticgeoms "region" <;>
    simp [regionIsNone, h, List.length_eq_zero]

/-- C5: a non-writable `update` without an output root fails with the
ValueError-class error demanding `model_out`; with an output root it performs
the full read pass and re-roots to the output root in WRITE mode before any
setup entry is dispatched. -/
theorem c5_update_readonly (env : AttrEnv) (readFn : Model → Model) (m : Model)
    (writeFlag : Bool) (opt : List (String × Kwargs))
    (hok : checkGetOpt env opt = .ok opt) (hro : m.write = false) :
    (update env readFn m none writeFlag opt).2 = .error .modelOutRequired ∧
    ∀ r : String, ∃ rest : List Event,
      (update env readFn m (some r) writeFlag opt).1 =
        Event.readAll :: Event.setRoot r "w" :: rest ∧
      (setRootWriteMode r (readFn m)).write = true ∧
      (setRootWriteMode r (readFn m)).read = false := by
  constructor
  · simp [update, hok, hro]
  · intro r
    by_cases hr : regionIsNone (setRootWriteMode r (readFn m))
    · exact ⟨[], by simp [update, hok, hro, hr], rfl, rfl⟩
    · exact ⟨Event.run "setup_config"
          ((alget (alerase opt "setup_basemaps") "setup_config").getD []) ::
          (runEvents (alerase (alerase opt "setup_basemaps") "setup_config") ++
            if writeFlag then [Event.writeAll] else []),
        by simp [update, hok, hro, hr], rfl, rfl⟩

/-- Witness for C5: a READ-mode model updated without and with an output
root. -/
theorem c5_update_readonly_witness :
    (update baseModelAttrs (fun x => x) readModelWithData none false []).2 =
      .error .modelOutRequired ∧
    ∃ rest : List Event,
      (update baseModelAttrs (fun x => x) readModelWithData (some "/out")
          false []).1 =
        Event.readAll :: Event.setRoot "/out" "w" :: rest ∧
      (setRootWriteMode "/out" ((fun x => x) readModelWithData)).write = true ∧
      (setRootWriteMode "/out" ((fun x => x) readModelWithData)).read = false :=
  ⟨(c5_update_readonly baseModelAttrs (fun x => x) readModelWithData false []
      rfl rfl).1,
   (c5_update_readonly baseModelAttrs (fun x => x) readModelWithData false []
      rfl rfl).2 "/out"⟩

/-- C6: `update` fails with the region-not-found ValueError exactly when, at
region-check time, the geometry collection holds no cached `"region"` entry
and the staticmaps collection is empty — on a writable model its own
collections, on a read-only model the collections after the read pass. -/
theorem c6_region_check (env : AttrEnv) (readFn : Model → Model) (m : Model)
    (writeFlag : Bool) (opt : List (String × Kwargs)) (r : String)
    (hok : checkGetOpt env opt = .ok opt) :
    (m.write = true →
      ((update env readFn m none writeFlag opt).2 = .error .regionNotFound ↔
        alcontains m.staticgeoms "region" = false ∧ m.staticmaps = [])) ∧
    (m.write = false →
      ((update env readFn m (some r) writeFlag opt).2 =
          .error .regionNotFound ↔
        alcontains (readFn m).staticgeoms "region" = false ∧
          (readFn m).staticmaps = [])) := by
  constructor
  · intro hw
    have h2 : (update env readFn m none writeFlag opt).2 =
        .error .regionNotFound ↔ regionIsNone m = true := by
      by_cases hr : regionIsNone m <;> simp [update, hok, hw, hr]
    rw [h2, regionIsNone_iff]
  · intro hw
    have h2 : (update env readFn m (some r) writeFlag opt).2 =
        .error .regionNotFound ↔
        regionIsNone (setRootWriteMode r (readFn m)) = true := by
      by_cases hr : regionIsNone (setRootWriteMode r (readFn m)) <;>
        simp [update, hok, hw, hr]
    rw [h2, regionIsNone_iff]
    simp [setRootWriteMode]

/-- Witness for C6: the region check passes on a model with a cached region
geometry and fires on a fresh READ-mode model (the spec's Scenario C). -/
theorem c6_region_check_witness :
    ((update baseModelAttrs (fun x => x) writeModelWithRegion none false
        []).2 = .error .regionNotFound ↔
      alcontains writeModelWithRegion.staticgeoms "region" = false ∧
        writeModelWithRegion.staticmaps = []) ∧
    ((update baseModelAttrs (fun x => x) freshReadModel (some "/out") false
        []).2 = .error .regionNotFound ↔
      alcontains ((fun x => x) freshReadModel).staticgeoms "region" = false ∧
        ((fun x => x) freshReadModel).staticmaps = []) :=
  ⟨(c6_region_check baseModelAttrs (fun x => x) writeModelWithRegion false []
      "/out" rfl).1 rfl,
   (c6_region_check baseModelAttrs (fun x => x) freshReadModel false []
      "/out" rfl).2 rfl⟩

/-- Setting then getting along the same key path yields the value set. -/
theorem getConfigKeys_setBranch (v : PyVal) :
    ∀ (ks : List String) (cfg : List (String × PyVal)), ks ≠ [] →
      getConfigKeys (setBranch cfg ks v) ks = some v := by
  intro ks
  induction ks with
  | nil => intro cfg h; exact absurd rfl h
  | cons k rest ih =>
      intro cfg _
      cases rest with
      | nil => simp [setBranch, getConfigKeys]
      | cons k2 tl =>
          simp only [setBranch, getConfigKeys, alget_alset_self]
          exact ih _ (by simp)

/-- C4: on a writable model, `set_config` followed by `get_config` along the
same dotted path returns the value set, through auto-vivified or overwritten
intermediate levels; and Scenario A: `set_config("a.b", "x")` on an empty
tree makes `get_config("a.b")` return `"x"` and `get_config("a")` return the
one-key mapping `{"b": "x"}`. -/
theorem c4_config_roundtrip :
    (∀ (m : Model) (keys : List String) (v : PyVal),
      m.write = true → splitDotted keys ≠ [] →
      ∃ m₁, set_config m keys v = .ok m₁ ∧
        get_config m₁ keys none = some v) ∧
    (∀ m : Model, m.write = true → m.config = [] →
      ∃ m₁, set_config m ["a.b"] (.str "x") = .ok m₁ ∧
        get_config m₁ ["a.b"] none = some (.str "x") ∧
        get_config m₁ ["a"] none = some (.dict [("b", .str "x")])) := by
  constructor
  · intro m keys v hw hk
    refine ⟨{ m with config := setBranch m.config (splitDotted keys) v },
      ?_, ?_⟩
    · simp [set_config, hw]
    · unfold get_config
      dsimp only
      rw [getConfigKeys_setBranch v (splitDotted keys) m.config hk]
  · intro m hw hcfg
    refine ⟨{ m with
        config := setBranch m.config (splitDotted ["a.b"]) (.str "x") },
      ?_, ?_, ?_⟩
    · simp [set_config, hw]
    · unfold get_config
      dsimp only
      rw [hcfg]
      rfl
    · unfold get_config
      dsimp only
      rw [hcfg]
      rfl

/-- Witness for C4: a concrete round trip on a fresh WRITE-mode model, and
Scenario A on the same model. -/
theorem c4_config_roundtrip_witness :
    (∃ m₁, set_config freshWriteModel ["levels.depth"] (.int 7) = .ok m₁ ∧
      get_config m₁ ["levels.depth"] none = some (.int 7)) ∧
    (∃ m₁, set_config freshWriteModel ["a.b"] (.str "x") = .ok m₁ ∧
      get_config m₁ ["a.b"] none = some (.str "x") ∧
      get_config m₁ ["a"] none = some (.dict [("b", .str "x")])) :=
  ⟨c4_config_roundtrip.1 freshWriteModel ["levels.depth"] (.int 7) rfl
      (by decide),
   c4_config_roundtrip.2 freshWriteModel rfl rfl⟩

/-- C7 counterexample: in pure READ mode a first-time `set_forcing` call with
a fresh name succeeds and stores the entry — the claim that any component
`set` call fails in READ mode is false. -/
theorem c7_read_insert_counterexample :
    set_forcing freshReadModel (.dataArray (some "precip")) none =
      .ok { freshReadModel with
              forcing := [("precip", .dataArray (some "precip"))] } ∧
    freshReadModel.write = false ∧ freshReadModel.read = true :=
  ⟨rfl, rfl, rfl⟩

/-- C7 (amended): in pure READ mode a component `set` fails with the
IOError-class read-only error exactly on an entry whose name already exists
in the collection (shown for forcing, staticmaps and staticgeoms); `set`
twice with the same name in WRITE mode succeeds both times (overwrite), and
the same two-call sequence in READ mode fails on the second call. -/
theorem c7_read_overwrite_amended (m : Model) (n : String) (g : GeoData) :
    (m.write = false → alcontains m.forcing n = true →
      set_forcing m (.dataArray (some n)) none =
        .error (.ioError
          ("Cannot replace forcing " ++ n ++ " in read-only mode"))) ∧
    (m.write = true →
      ∃ m₁ m₂, set_forcing m (.dataArray (some n)) none = .ok m₁ ∧
        set_forcing m₁ (.dataArray (some n)) none = .ok m₂) ∧
    (m.write = false → alcontains m.forcing n = false →
      ∃ m₁, set_forcing m (.dataArray (some n)) none = .ok m₁ ∧
        set_forcing m₁ (.dataArray (some n)) none =
          .error (.ioError
            ("Cannot replace forcing " ++ n ++ " in read-only mode"))) ∧
    (m.write = false → m.staticmaps.contains n = true →
      set_staticmaps m (.dataset [n]) none =
        .error (.ioError
          ("Cannot overwrite staticmap " ++ n ++ " in read-only mode"))) ∧
    (m.write = false → g ≠ .gOther → alcontains m.staticgeoms n = true →
      set_staticgeoms m g n =
        .error (.ioError
          ("Cannot overwrite staticgeom " ++ n ++ " in read-only mode"))) := by
  refine ⟨?_, ?_, ?_, ?_, ?_⟩
  · intro hw hc
    simp [set_forcing, normalizeDictPayload, storeEntries, hc, hw]
  · intro hw
    have h1 : ∀ mm : Model, mm.write = true →
        set_forcing mm (.dataArray (some n)) none =
          .ok { mm with
                  forcing := alset mm.forcing n (.dataArray (some n)) } := by
      intro mm hmm
      simp [set_forcing, normalizeDictPayload, storeEntries, hmm]
    exact ⟨_, _, h1 m hw, h1 _ hw⟩
  · intro hw hc
    refine ⟨{ m with forcing := alset m.forcing n (.dataArray (some n)) },
      ?_, ?_⟩
    · simp [set_forcing, normalizeDictPayload, storeEntries, hc, hw]
    · have hc2 : alcontains (alset m.forcing n (.dataArray (some n))) n
          = true := by
        simp [alcontains, alget_alset_self]
      simp [set_forcing, normalizeDictPayload, storeEntries, hc2, hw]
  · intro hw hc
    cases hms : m.staticmaps with
    | nil => rw [hms] at hc; simp at hc
    | cons a l =>
        rw [hms] at hc
        have hc2 : n = a ∨ n ∈ l := by simpa using hc
        simp [set_staticmaps, smNormalize, hms, smInsertVars, hw, hc2]
  · intro hw hg hc
    simp [set_staticgeoms, hg, hc, hw]

/-- Witness for C7 (amended): all five branches at concrete models — the
READ-mode model with data for the overwrite failures, a fresh WRITE model for
the double set, and a fresh READ model for the insert-then-replace
sequence. -/
theorem c7_read_overwrite_amended_witness :
    (set_forcing readModelWithData (.dataArray (some "precip")) none =
      .error (.ioError "Cannot replace forcing precip in read-only mode")) ∧
    (∃ m₁ m₂, set_forcing freshWriteModel (.dataArray (some "t2m")) none =
        .ok m₁ ∧
      set_forcing m₁ (.dataArray (some "t2m")) none = .ok m₂) ∧
    (∃ m₁, set_forcing freshReadModel (.dataArray (some "t2m")) none =
        .ok m₁ ∧
      set_forcing m₁ (.dataArray (some "t2m")) none =
        .error (.ioError "Cannot replace forcing t2m in read-only mode")) ∧
    (set_staticmaps readModelWithData (.dataset ["dem"]) none =
      .error (.ioError "Cannot overwrite staticmap dem in read-only mode")) ∧
    (set_staticgeoms readModelWithData .geoDataFrame "region" =
      .error (.ioError
        "Cannot overwrite staticgeom region in read-only mode")) :=
  ⟨(c7_read_overwrite_amended readModelWithData "precip" .geoDataFrame).1
      rfl rfl,
   (c7_read_overwrite_amended freshWriteModel "t2m" .geoDataFrame).2.1 rfl,
   (c7_read_overwrite_amended freshReadModel "t2m" .geoDataFrame).2.2.1
      rfl rfl,
   (c7_read_overwrite_amended readModelWithData "dem" .geoDataFrame).2.2.2.1
      rfl rfl,
   (c7_read_overwrite_amended readModelWithData "region"
      .geoDataFrame).2.2.2.2 rfl (by decide) rfl⟩

/-- C8 counterexample: a Dataset payload whose only field is `"dem"` with
requested `name="elevtn"` does not raise — `set_staticmaps` renames the
single field to the requested name and stores it. -/
theorem c8_rename_counterexample :
    set_staticmaps freshWriteModel (.dataset ["dem"]) (some "elevtn") =
      .ok { freshWriteModel with staticmaps := ["elevtn"] } :=
  rfl

/-- C8 (amended): with an explicit name absent from the payload's fields,
`set_staticmaps` fails with the ValueError-class "Name not found in DataSet"
only when the payload has a number of fields different from one; a
single-field payload is instead renamed to the requested name and the call
proceeds as if the payload had carried that name. -/
theorem c8_name_not_found_amended (m : Model) (vars : List String)
    (n : String) (hnot : vars.contains n = false) :
    (vars.length ≠ 1 →
      set_staticmaps m (.dataset vars) (some n) =
        .error (.valueError "Name not found in DataSet")) ∧
    (∀ v, vars = [v] →
      set_staticmaps m (.dataset vars) (some n) =
        set_staticmaps m (.dataset [n]) (some n)) := by
  constructor
  · intro hlen
    have hbeq : (vars.length == 1) = false := by
      simpa using hlen
    have hnot2 : n ∉ vars := by simpa using hnot
    simp [set_staticmaps, smNormalize, hbeq, hnot2]
  · intro v hv
    subst hv
    have hnv : ¬ n = v := by simpa using hnot
    simp [set_staticmaps, smNormalize, hnv]

/-- Witness for C8 (amended): a two-field payload with an unmatched name
fails; a one-field payload with an unmatched name behaves as the renamed
payload. -/
theorem c8_name_not_found_amended_witness :
    (set_staticmaps freshWriteModel (.dataset ["dem", "slope"])
        (some "elevtn") =
      .error (.valueError "Name not found in DataSet")) ∧
    (set_staticmaps freshWriteModel (.dataset ["dem"]) (some "elevtn") =
      set_staticmaps freshWriteModel (.dataset ["elevtn"]) (some "elevtn")) :=
  ⟨(c8_name_not_found_amended freshWriteModel ["dem", "slope"] "elevtn"
      (by decide)).1 (by decide),
   (c8_name_not_found_amended freshWriteModel ["dem"] "elevtn"
      (by decide)).2 "dem" rfl⟩

/-- C10: in pure READ mode a component `set` whose resolved name is not yet
in the collection succeeds and stores the entry — the read-only IOError
guards only the already-present branch — for forcing, states, results and
staticgeoms, and for staticmaps when the collection is empty. -/
theorem c10_read_first_insert (m : Model) (n : String) (vars : List String)
    (g : GeoData) (hro : m.write = false) :
    (alcontains m.forcing n = false →
      ∃ m₁, set_forcing m (.dataArray (some n)) none = .ok m₁ ∧
        alget m₁.forcing n = some (.dataArray (some n))) ∧
    (alcontains m.states n = false →
      ∃ m₁, set_states m (.dataArray (some n)) none = .ok m₁ ∧
        alget m₁.states n = some (.dataArray (some n))) ∧
    (alcontains m.results n = false →
      ∃ m₁, set_results m (.dataArray (some n)) none = .ok m₁ ∧
        alget m₁.results n = some (.dataArray (some n))) ∧
    (g ≠ .gOther → alcontains m.staticgeoms n = false →
      ∃ m₁, set_staticgeoms m g n = .ok m₁ ∧
        alget m₁.staticgeoms n = some g) ∧
    (m.staticmaps = [] →
      ∃ m₁, set_staticmaps m (.dataset vars) none = .ok m₁ ∧
        m₁.staticmaps = vars) := by
  refine ⟨?_, ?_, ?_, ?_, ?_⟩
  · intro hc
    refine ⟨{ m with forcing := alset m.forcing n (.dataArray (some n)) },
      ?_, ?_⟩
    · simp [set_forcing, normalizeDictPayload, storeEntries, hc]
    · exact alget_alset_self _ _ _
  · intro hc
    refine ⟨{ m with states := alset m.states n (.dataArray (some n)) },
      ?_, ?_⟩
    · simp [set_states, normalizeDictPayload, storeEntries, hc]
    · exact alget_alset_self _ _ _
  · intro hc
    refine ⟨{ m with results := alset m.results n (.dataArray (some n)) },
      ?_, ?_⟩
    · simp [set_results, normalizeDictPayload, storeEntries, hc]
    · exact alget_alset_self _ _ _
  · intro hg hc
    refine ⟨{ m with staticgeoms := alset m.staticgeoms n g }, ?_, ?_⟩
    · simp [set_staticgeoms, hg, hc]
    · exact alget_alset_self _ _ _
  · intro hsm
    exact ⟨{ m with staticmaps := vars },
      by simp [set_staticmaps, smNormalize, hsm], rfl⟩

/-- Witness for C10: first-time inserts on a fresh READ-mode model for every
component kind. -/
theorem c10_read_first_insert_witness :
    (∃ m₁, set_forcing freshReadModel (.dataArray (some "q")) none =
        .ok m₁ ∧ alget m₁.forcing "q" = some (.dataArray (some "q"))) ∧
    (∃ m₁, set_states freshReadModel (.dataArray (some "q")) none =
        .ok m₁ ∧ alget m₁.states "q" = some (.dataArray (some "q"))) ∧
    (∃ m₁, set_results freshReadModel (.dataArray (some "q")) none =
        .ok m₁ ∧ alget m₁.results "q" = some (.dataArray (some "q"))) ∧
    (∃ m₁, set_staticgeoms freshReadModel .geoSeries "q" = .ok m₁ ∧
        alget m₁.staticgeoms "q" = some .geoSeries) ∧
    (∃ m₁, set_staticmaps freshReadModel (.dataset ["dem", "slope"]) none =
        .ok m₁ ∧ m₁.staticmaps = ["dem", "slope"]) :=
  ⟨(c10_read_first_insert freshReadModel "q" ["dem", "slope"] .geoSeries
      rfl).1 rfl,
   (c10_read_first_insert freshReadModel "q" ["dem", "slope"] .geoSeries
      rfl).2.1 rfl,
   (c10_read_first_insert freshReadModel "q" ["dem", "slope"] .geoSeries
      rfl).2.2.1 rfl,
   (c10_read_first_insert freshReadModel "q" ["dem", "slope"] .geoSeries
      rfl).2.2.2.1 (by decide) rfl,
   (c10_read_first_insert freshReadModel "q" ["dem", "slope"] .geoSeries
      rfl).2.2.2.2 rfl⟩

end HydroMT
